import Mathlib

/-!
Verification of the Lumina AI interior-design assistant.

The development shallowly embeds the application's data model and the
controller state machine.  React `setState` calls are embedded as an
explicit list of `Event`s emitted by each handler, applied in program
order by `run`; functional updates (`prev => [...prev, x]`) become
append events, while closure-captured reads (`generatedImages.length`
inside `setSelectedImageIndex`) are evaluated against the state at the
start of the invocation, exactly as the closure semantics dictate in a
sequential execution.  The asynchronous gateway outcome is passed to
each handler as an explicit `Except` parameter (the environment's
choice), and the gateway adapters (`generateReimaginedRoom`,
`editRoomImage`, `sendChatMessage`) are embedded over a model of the
service response.  `Date.now()` is modelled by a single `now : Nat`
parameter (a frozen clock during one handler invocation); the source
ids `Date.now()`, `Date.now()+1`, `Date.now()+2` become `now`, `now+1`,
`now+2`.
-/

set_option autoImplicit false

/-! ### Data model (types.ts) -/

/-- RoomImage from types.ts. -/
structure RoomImage where
  id : String
  url : String
  styleName : String
  description : Option String
deriving DecidableEq

/-- The two chat roles. -/
inductive Role where
  | user
  | model
deriving DecidableEq

/-- A grounding link { uri, title }. -/
structure WebRef where
  uri : String
  title : String
deriving DecidableEq

/-- ChatMessage from types.ts; `groundingUrls` is optional. -/
structure ChatMessage where
  id : String
  role : Role
  text : String
  timestamp : Nat
  groundingUrls : Option (List WebRef)
deriving DecidableEq

/-- ProcessingStatus from types.ts. -/
inductive ProcessingStatus where
  | IDLE
  | GENERATING
  | EDITING
  | ERROR
deriving DecidableEq

/-- StylePreset from types.ts. -/
structure StylePreset where
  id : String
  name : String
  prompt : String
  thumbnailColor : String
deriving DecidableEq

/-- STYLE_PRESETS from constants.ts. -/
def STYLE_PRESETS : List StylePreset :=
  [⟨"mid-century", "Mid-Century Modern",
    "Mid-Century Modern style, teak wood furniture, organic curves, geometric patterns, retro vibes, warm tones",
    "bg-amber-100"⟩,
   ⟨"scandi", "Scandinavian",
    "Scandinavian style, minimalism, white walls, light wood floors, cozy textiles, functional furniture, bright and airy",
    "bg-slate-100"⟩,
   ⟨"industrial", "Industrial Lofts",
    "Industrial style, exposed brick, metal accents, leather furniture, concrete floors, raw materials, edgy and modern",
    "bg-stone-300"⟩,
   ⟨"boho", "Bohemian Chic",
    "Bohemian style, eclectic patterns, plants everywhere, rattan furniture, layered rugs, warm earthy colors, relaxed atmosphere",
    "bg-orange-100"⟩,
   ⟨"japandi", "Japandi",
    "Japandi style, blend of Japanese rustic minimalism and Scandinavian functionality, clean lines, bright spaces, natural materials",
    "bg-green-50"⟩]

/-- The controller's session state (the six useState hooks of App).
`selectedImageIndex` is a JS number with -1 meaning "no selection". -/
structure AppState where
  originalImage : Option String
  generatedImages : List RoomImage
  selectedImageIndex : Int
  status : ProcessingStatus
  chatMessages : List ChatMessage
  errorMsg : Option String
deriving DecidableEq

/-- Computed value `currentDisplayedImage`: `generatedImages[selectedImageIndex]`
when the index is nonnegative (out-of-range access yields undefined in JS,
hence `none`), else null. -/
def currentDisplayedImage (s : AppState) : Option RoomImage :=
  if 0 ≤ s.selectedImageIndex then s.generatedImages[s.selectedImageIndex.toNat]? else none

/-! ### AI gateway (services/geminiService.ts)

A service response is a list of parts; each part may carry inline image
data.  Transport/service failures are the `Except.error` case of the
response parameter. -/

/-- An inline data blob of a response part. -/
structure InlineData where
  mimeType : Option String
  data : String
deriving DecidableEq

/-- One part of a generateContent response candidate. -/
structure ResponsePart where
  text : Option String
  inlineData : Option InlineData
deriving DecidableEq

/-- The data URL built from an inline part:
`data:${mimeType || image/jpeg};base64,${data}`.  The JS `||` falls back
to image/jpeg both when mimeType is absent and when it is the (falsy)
empty string. -/
def mkDataUrl (d : InlineData) : String :=
  "data:" ++
    (match d.mimeType with
     | some t => if t = "" then "image/jpeg" else t
     | none => "image/jpeg") ++
  ";base64," ++ d.data

/-- The extraction loop over response parts: return on the first part
carrying `inlineData`. -/
def extractDataUrl : List ResponsePart → Option String
  | [] => none
  | p :: ps =>
    match p.inlineData with
    | some d => some (mkDataUrl d)
    | none => extractDataUrl ps

/-- generateReimaginedRoom from geminiService.ts, as a function of the
service response: a transport error is rethrown; otherwise the first
inline part becomes a data URL, and `Error("No image generated.")` is
thrown when no part carries inline data. -/
def generateReimaginedRoom (response : Except String (List ResponsePart)) : Except String String :=
  match response with
  | Except.error e => Except.error e
  | Except.ok parts =>
    match extractDataUrl parts with
    | some url => Except.ok url
    | none => Except.error "No image generated."

/-- editRoomImage from geminiService.ts; identical extraction with its own
error message `Error("No edited image generated.")`. -/
def editRoomImage (response : Except String (List ResponsePart)) : Except String String :=
  match response with
  | Except.error e => Except.error e
  | Except.ok parts =>
    match extractDataUrl parts with
    | some url => Except.ok url
    | none => Except.error "No edited image generated."

/-- A grounding chunk of the chat response; only `chunk.web` is used. -/
structure GroundingChunk where
  web : Option WebRef
deriving DecidableEq

/-- The chat service response: `response.text` and the grounding chunks. -/
structure ChatServiceResponse where
  text : Option String
  groundingChunks : List GroundingChunk
deriving DecidableEq

/-- sendChatMessage from geminiService.ts, as a function of the service
response: builds a model-role ChatMessage from `response.text` (with the
JS `||` fallback, which also replaces an empty string) and the grounding
URLs collected from chunks that carry `web`. -/
def sendChatMessage (response : Except String ChatServiceResponse) (now : Nat) :
    Except String ChatMessage :=
  match response with
  | Except.error e => Except.error e
  | Except.ok r =>
    Except.ok
      { id := toString now
        role := Role.model
        text :=
          match r.text with
          | some t => if t = "" then "I couldn\x27t generate a response. Please try again." else t
          | none => "I couldn\x27t generate a response. Please try again."
        timestamp := now
        groundingUrls := some (r.groundingChunks.filterMap (fun c => c.web)) }

/-! ### Edit-command classification (App, isEditCommand) -/

/-- Whether `p` is a leading run of `s` (used to scan for substrings). -/
def listPrefixOf : List Char → List Char → Bool
  | [], _ => true
  | _ :: _, [] => false
  | a :: as, b :: bs => a = b && listPrefixOf as bs

/-- Whether `p` occurs contiguously anywhere in `s`. -/
def containsSub (p : List Char) : List Char → Bool
  | [] => listPrefixOf p []
  | c :: cs => listPrefixOf p (c :: cs) || containsSub p cs

/-- The alternatives of the regex `change|add|remove|make|turn`. -/
def editTokens : List String := ["change", "add", "remove", "make", "turn"]

/-- `isEditCommand` from App: the case-insensitive regex test
`/change|add|remove|make|turn/i.test(text)`, embedded as a lowercase
substring search for each alternative. -/
def isEditCommand (text : String) : Bool :=
  editTokens.any (fun t => containsSub t.toList (text.toList.map Char.toLower))

/-! ### Controller handlers as event traces -/

/-- Which gateway operation a request targets. -/
inductive GatewayOp where
  | regenerate
  | edit
  | chat
deriving DecidableEq

/-- One observable step of a handler: a setState call or a gateway request,
in program order. -/
inductive Event where
  | setOriginal (img : Option String)
  | setImages (imgs : List RoomImage)
  | appendImage (img : RoomImage)
  | setSelected (i : Int)
  | setStatus (st : ProcessingStatus)
  | setMsgs (msgs : List ChatMessage)
  | appendMsg (m : ChatMessage)
  | setError (e : Option String)
  | gatewayRequest (op : GatewayOp)
deriving DecidableEq

/-- Apply one event to the session state. -/
def applyEvent (s : AppState) : Event → AppState
  | Event.setOriginal img => { s with originalImage := img }
  | Event.setImages imgs => { s with generatedImages := imgs }
  | Event.appendImage img => { s with generatedImages := s.generatedImages ++ [img] }
  | Event.setSelected i => { s with selectedImageIndex := i }
  | Event.setStatus st => { s with status := st }
  | Event.setMsgs msgs => { s with chatMessages := msgs }
  | Event.appendMsg m => { s with chatMessages := s.chatMessages ++ [m] }
  | Event.setError e => { s with errorMsg := e }
  | Event.gatewayRequest _ => s

/-- Run a trace of events from a state. -/
def run (s : AppState) (evs : List Event) : AppState :=
  evs.foldl applyEvent s

/-- The state updates of handleFileUpload's onloadend callback (also used
verbatim by handleSampleImage). -/
def uploadEvents (base64 : String) : List Event :=
  [Event.setOriginal (some base64),
   Event.setImages [],
   Event.setSelected (-1),
   Event.setMsgs [],
   Event.setStatus ProcessingStatus.IDLE,
   Event.setError none]

/-- The reset ("Start Over") button's onClick in App: it clears only
originalImage, generatedImages and chatMessages. -/
def resetEvents : List Event :=
  [Event.setOriginal none,
   Event.setImages [],
   Event.setMsgs []]

/-- handleStyleSelect from App.  Returns the trace of its setState calls and
gateway request; `[]` when the early-return guards fire.  `response` is the
outcome of the awaited service call. -/
def handleStyleSelect (s : AppState) (styleId : String) (now : Nat)
    (response : Except String (List ResponsePart)) : List Event :=
  if s.originalImage = none ∨ s.status = ProcessingStatus.GENERATING then []
  else
    match STYLE_PRESETS.find? (fun p => p.id == styleId) with
    | none => []
    | some style =>
      [Event.setStatus ProcessingStatus.GENERATING,
       Event.setError none,
       Event.gatewayRequest GatewayOp.regenerate] ++
      (match generateReimaginedRoom response with
       | Except.ok resultBase64 =>
         [Event.appendImage
            ⟨toString now, resultBase64, style.name,
             some ("Reimagined in " ++ style.name ++ " style")⟩,
          Event.setSelected (Int.ofNat s.generatedImages.length)]
       | Except.error _ =>
         [Event.setError (some "Failed to generate design. Please try again.")]) ++
      [Event.setStatus ProcessingStatus.IDLE]

/-- The user message appended by handleChatRequest. -/
def userChatMsg (text : String) (now : Nat) : ChatMessage :=
  ⟨toString now, Role.user, text, now, none⟩

/-- The optimistic progress message of the edit path. -/
def editingProgressMsg (now : Nat) : ChatMessage :=
  ⟨toString (now + 1), Role.model, "I\x27m applying those changes to the design...", now, none⟩

/-- The confirmation message of the successful edit path. -/
def editDoneMsg (now : Nat) : ChatMessage :=
  ⟨toString (now + 2), Role.model, "Here is the updated design based on your request.", now, none⟩

/-- The apologetic message of the failed edit path. -/
def editFailedMsg (now : Nat) : ChatMessage :=
  ⟨toString now, Role.model, "Sorry, I encountered an issue editing the image.", now, none⟩

/-- The connectivity-error message of the failed chat path. -/
def chatFailedMsg (now : Nat) : ChatMessage :=
  ⟨toString now, Role.model, "I\x27m having trouble connecting right now. Please try again.", now, none⟩

/-- handleChatRequest from App, as the trace of its setState calls and
gateway request.  `editResponse` and `chatResponse` are the outcomes of the
awaited service calls on the respective paths. -/
def handleChatRequest (s : AppState) (text : String) (now : Nat)
    (editResponse : Except String (List ResponsePart))
    (chatResponse : Except String ChatServiceResponse) : List Event :=
  if s.status = ProcessingStatus.EDITING then []
  else
    Event.appendMsg (userChatMsg text now) ::
    (match currentDisplayedImage s, isEditCommand text with
     | some _cur, true =>
       [Event.setStatus ProcessingStatus.EDITING,
        Event.appendMsg (editingProgressMsg now),
        Event.gatewayRequest GatewayOp.edit] ++
       (match editRoomImage editResponse with
        | Except.ok editedBase64 =>
          [Event.appendImage ⟨toString now, editedBase64, "Custom Edit", some text⟩,
           Event.setSelected (Int.ofNat s.generatedImages.length),
           Event.appendMsg (editDoneMsg now)]
        | Except.error _ => [Event.appendMsg (editFailedMsg now)]) ++
       [Event.setStatus ProcessingStatus.IDLE]
     | _, _ =>
       [Event.setStatus ProcessingStatus.GENERATING,
        Event.gatewayRequest GatewayOp.chat] ++
       (match sendChatMessage chatResponse now with
        | Except.ok responseMsg => [Event.appendMsg responseMsg]
        | Except.error _ => [Event.appendMsg (chatFailedMsg now)]) ++
       [Event.setStatus ProcessingStatus.IDLE])

/-! ### Trace observations -/

/-- Is this event a gateway request? -/
def isGatewayEv : Event → Bool
  | Event.gatewayRequest _ => true
  | _ => false

/-- The events strictly after the first gateway request of a trace. -/
def afterGatewayCall (tr : List Event) : List Event :=
  (tr.dropWhile (fun e => !isGatewayEv e)).drop 1

/-- The model-role messages appended by a trace, in order. -/
def modelAppends (tr : List Event) : List ChatMessage :=
  tr.filterMap (fun e =>
    match e with
    | Event.appendMsg m => if m.role = Role.model then some m else none
    | _ => none)

/-- The user-role messages appended by a trace, in order. -/
def userAppends (tr : List Event) : List ChatMessage :=
  tr.filterMap (fun e =>
    match e with
    | Event.appendMsg m => if m.role = Role.user then some m else none
    | _ => none)

/-- The RoomImages appended by a trace, in order. -/
def imageAppends (tr : List Event) : List RoomImage :=
  tr.filterMap (fun e =>
    match e with
    | Event.appendImage img => some img
    | _ => none)

/-! ### Compare View (CompareSlider.handleMove)

Coordinates are modelled over `Rat`.  In the source,
`(x / rect.width) * 100` divides by `rect.width`; when the bounding
rectangle has width 0, IEEE division yields NaN, which is not a number at
all, so the result is modelled as `none` in that case. -/

/-- The bounding client rectangle fields handleMove reads. -/
structure DOMRectModel where
  left : Rat
  width : Rat
deriving DecidableEq

/-- handleMove from CompareSlider: clamp the pointer offset to the
rectangle, divide by the width, scale to a percentage, clamp to [0, 100].
`none` models the NaN produced by a zero-width rectangle. -/
def handleMove (clientX : Rat) (rect : DOMRectModel) : Option Rat :=
  if rect.width = 0 then none
  else
    some (max 0 (min (max 0 (min (clientX - rect.left) rect.width) / rect.width * 100) 100))

/-! ### Helper lemmas -/

theorem listPrefixOf_iff (p : List Char) : ∀ s : List Char,
    listPrefixOf p s = true ↔ ∃ r, s = p ++ r := by
  induction p with
  | nil => intro s; simp [listPrefixOf]
  | cons a as ih =>
    intro s
    cases s with
    | nil => simp [listPrefixOf]
    | cons b bs =>
      rw [listPrefixOf]
      simp only [Bool.and_eq_true, decide_eq_true_eq, ih, List.cons_append, List.cons.injEq]
      constructor
      · rintro ⟨rfl, r, rfl⟩
        exact ⟨r, rfl, rfl⟩
      · rintro ⟨r, rfl, rfl⟩
        exact ⟨rfl, r, rfl⟩

theorem containsSub_iff (p : List Char) : ∀ s : List Char,
    containsSub p s = true ↔ ∃ l r, s = l ++ p ++ r := by
  intro s
  induction s with
  | nil =>
    rw [containsSub, listPrefixOf_iff]
    constructor
    · rintro ⟨r, h⟩
      exact ⟨[], r, by simpa using h⟩
    · rintro ⟨l, r, h⟩
      have h' : l = [] ∧ p = [] ∧ r = [] := by simpa [List.append_assoc] using h.symm
      exact ⟨r, by simp [h'.1, h'.2.1, h'.2.2]⟩
  | cons c cs ih =>
    rw [containsSub]
    simp only [Bool.or_eq_true, listPrefixOf_iff, ih]
    constructor
    · rintro (⟨r, h⟩ | ⟨l, r, h⟩)
      · exact ⟨[], r, by simpa using h⟩
      · exact ⟨c :: l, r, by simp [h]⟩
    · rintro ⟨l, r, h⟩
      cases l with
      | nil => exact Or.inl ⟨r, by simpa using h⟩
      | cons x xs =>
        simp only [List.cons_append, List.cons.injEq, List.append_assoc] at h
        exact Or.inr ⟨xs, r, by simp [h.2, List.append_assoc]⟩

theorem map_split {α β : Type} (f : α → β) : ∀ (L1 : List β) (s : List α) (L2 : List β),
    s.map f = L1 ++ L2 → ∃ s1 s2, s = s1 ++ s2 ∧ s1.map f = L1 ∧ s2.map f = L2 := by
  intro L1
  induction L1 with
  | nil =>
    intro s L2 h
    exact ⟨[], s, by simp, rfl, by simpa using h⟩
  | cons b bs ih =>
    intro s L2 h
    cases s with
    | nil => simp at h
    | cons a as =>
      simp only [List.map_cons, List.cons_append, List.cons.injEq] at h
      obtain ⟨s1, s2, rfl, hm1, hm2⟩ := ih as L2 h.2
      exact ⟨a :: s1, s2, rfl, by simp [h.1, hm1], hm2⟩

theorem containsSub_map_toLower_iff (p s : List Char) :
    containsSub p (s.map Char.toLower) = true ↔
      ∃ l m r, s = l ++ m ++ r ∧ m.map Char.toLower = p := by
  rw [containsSub_iff]
  constructor
  · rintro ⟨ll, rr, h⟩
    obtain ⟨l, rest, rfl, hl, hrest⟩ := map_split Char.toLower ll s (p ++ rr) (by simpa [List.append_assoc] using h)
    obtain ⟨m, r, rfl, hm, hr⟩ := map_split Char.toLower p rest rr hrest
    exact ⟨l, m, r, by simp [List.append_assoc], hm⟩
  · rintro ⟨l, m, r, rfl, hm⟩
    exact ⟨l.map Char.toLower, r.map Char.toLower, by simp [hm]⟩

/-- C6: the classifier `isEditCommand` accepts a text exactly when one of the
five regex alternatives change, add, remove, make, turn occurs in it as a
contiguous, case-insensitive substring; a text containing none of them is
therefore classified as a chat question.  -/
theorem isEditCommand_iff_token_occurs (text : String) :
    isEditCommand text = true ↔
      ∃ t ∈ editTokens, ∃ l m r : List Char,
        text.toList = l ++ m ++ r ∧ m.map Char.toLower = t.toList := by
  unfold isEditCommand
  rw [List.any_eq_true]
  constructor
  · rintro ⟨t, ht, hc⟩
    exact ⟨t, ht, (containsSub_map_toLower_iff _ _).mp hc⟩
  · rintro ⟨t, ht, hocc⟩
    exact ⟨t, ht, (containsSub_map_toLower_iff _ _).mpr hocc⟩

/-! ### Concrete fixtures -/

/-- A session busy generating, with an uploaded image. -/
def stateGen : AppState := ⟨some "img", [], -1, ProcessingStatus.GENERATING, [], none⟩

/-- A session busy editing, with an uploaded image. -/
def stateEdit : AppState := ⟨some "img", [], -1, ProcessingStatus.EDITING, [], none⟩

/-- An idle session with an uploaded image and no generations yet. -/
def stateIdleImg : AppState := ⟨some "orig", [], -1, ProcessingStatus.IDLE, [], none⟩

/-- A generated room image. -/
def imgA : RoomImage := ⟨"1", "urlA", "Scandinavian", none⟩

/-- An idle session with one generated image, selected. -/
def stateWithImage : AppState := ⟨some "orig", [imgA], 0, ProcessingStatus.IDLE, [], none⟩

/-- An idle session with stale selection, banner error and transcript. -/
def stateDirty : AppState :=
  ⟨some "orig", [imgA], 0, ProcessingStatus.GENERATING, [userChatMsg "hi" 0], some "boom"⟩

/-- An inline image blob of a service response. -/
def inlA : InlineData := ⟨none, "AAA"⟩

/-- A response part carrying inline image data. -/
def partImg : ResponsePart := ⟨none, some inlA⟩

/-- A response part carrying only text. -/
def partText : ResponsePart := ⟨some "hi", none⟩

/-! ### C1 -/

/-- C1 is false as stated: handlers invoked while the status is not Idle are
not always ignored.  A chat submission during Generating appends the user
message and issues a chat gateway request (the guard only checks Editing),
and a style selection during Editing issues a regenerate gateway request and
changes the session state (the guard only checks Generating). -/
theorem non_idle_submission_has_effects :
    (Event.gatewayRequest GatewayOp.chat ∈
        handleChatRequest stateGen "hello" 0 (Except.error "e") (Except.error "e") ∧
      (run stateGen
          (handleChatRequest stateGen "hello" 0 (Except.error "e") (Except.error "e"))).chatMessages ≠
        stateGen.chatMessages) ∧
    (Event.gatewayRequest GatewayOp.regenerate ∈
        handleStyleSelect stateEdit "scandi" 0 (Except.ok []) ∧
      run stateEdit (handleStyleSelect stateEdit "scandi" 0 (Except.ok [])) ≠ stateEdit) := by
  refine ⟨⟨?_, ?_⟩, ?_, ?_⟩ <;> decide

/-- C1 (amended): the busy guards are asymmetric.  A style selection is
ignored (no gateway request, no state change) when the status is Generating,
and a chat submission is ignored when the status is Editing; but a style
selection for a known preset invoked while Editing issues a gateway request,
and a chat submission invoked while Generating appends the user message and
issues a gateway request. -/
theorem busy_guards_asymmetric (s t u v : AppState) (styleId styleId2 text text2 : String)
    (now : Nat) (resp resp2 respE respE2 : Except String (List ResponsePart))
    (respC respC2 : Except String ChatServiceResponse) (style : StylePreset)
    (hs : s.status = ProcessingStatus.GENERATING)
    (ht : t.status = ProcessingStatus.EDITING)
    (hu1 : u.status = ProcessingStatus.EDITING)
    (hu2 : u.originalImage ≠ none)
    (hu3 : STYLE_PRESETS.find? (fun p => p.id == styleId2) = some style)
    (hv : v.status = ProcessingStatus.GENERATING) :
    handleStyleSelect s styleId now resp = [] ∧
    run s (handleStyleSelect s styleId now resp) = s ∧
    handleChatRequest t text now respE respC = [] ∧
    run t (handleChatRequest t text now respE respC) = t ∧
    Event.gatewayRequest GatewayOp.regenerate ∈ handleStyleSelect u styleId2 now resp2 ∧
    Event.appendMsg (userChatMsg text2 now) ∈ handleChatRequest v text2 now respE2 respC2 ∧
    (∃ op, Event.gatewayRequest op ∈ handleChatRequest v text2 now respE2 respC2) := by
  have h1 : handleStyleSelect s styleId now resp = [] := by
    unfold handleStyleSelect
    rw [if_pos (Or.inr hs)]
  have h2 : handleChatRequest t text now respE respC = [] := by
    unfold handleChatRequest
    rw [if_pos ht]
  have h5 : Event.gatewayRequest GatewayOp.regenerate ∈ handleStyleSelect u styleId2 now resp2 := by
    unfold handleStyleSelect
    rw [if_neg (not_or.mpr ⟨hu2, by simp [hu1]⟩)]
    simp only [hu3]
    exact List.mem_append_left _ (by simp)
  have h6 : Event.appendMsg (userChatMsg text2 now) ∈
      handleChatRequest v text2 now respE2 respC2 := by
    unfold handleChatRequest
    rw [if_neg (by simp [hv])]
    exact List.mem_cons_self _ _
  have h7 : ∃ op, Event.gatewayRequest op ∈ handleChatRequest v text2 now respE2 respC2 := by
    unfold handleChatRequest
    rw [if_neg (by simp [hv])]
    cases currentDisplayedImage v <;> cases isEditCommand text2
    · exact ⟨GatewayOp.chat, by simp⟩
    · exact ⟨GatewayOp.chat, by simp⟩
    · exact ⟨GatewayOp.chat, by simp⟩
    · exact ⟨GatewayOp.edit, by simp⟩
  exact ⟨h1, by rw [h1]; rfl, h2, by rw [h2]; rfl, h5, h6, h7⟩

/-- Witness for the amended C1 at concrete busy states: both ignored
directions and both proceeding directions. -/
theorem busy_guards_asymmetric_witness :
    handleStyleSelect stateGen "scandi" 0 (Except.ok []) = [] ∧
    run stateGen (handleStyleSelect stateGen "scandi" 0 (Except.ok [])) = stateGen ∧
    handleChatRequest stateEdit "hello" 0 (Except.ok []) (Except.error "e") = [] ∧
    run stateEdit (handleChatRequest stateEdit "hello" 0 (Except.ok []) (Except.error "e")) = stateEdit ∧
    Event.gatewayRequest GatewayOp.regenerate ∈ handleStyleSelect stateEdit "scandi" 0 (Except.ok []) ∧
    Event.appendMsg (userChatMsg "hello" 0) ∈
      handleChatRequest stateGen "hello" 0 (Except.ok []) (Except.error "e") ∧
    (∃ op, Event.gatewayRequest op ∈
      handleChatRequest stateGen "hello" 0 (Except.ok []) (Except.error "e")) :=
  busy_guards_asymmetric stateGen stateEdit stateEdit stateGen "scandi" "scandi" "hello" "hello" 0
    (Except.ok []) (Except.ok []) (Except.ok []) (Except.ok []) (Except.error "e") (Except.error "e")
    ⟨"scandi", "Scandinavian",
     "Scandinavian style, minimalism, white walls, light wood floors, cozy textiles, functional furniture, bright and airy",
     "bg-slate-100"⟩
    rfl rfl rfl (by decide) (by decide) rfl

/-! ### C3 -/

/-- C3 is false as stated: the explicit reset button leaves selectedIndex,
the error banner and the processing status untouched. -/
theorem reset_leaves_selection_error_status :
    (run stateDirty resetEvents).selectedImageIndex ≠ -1 ∧
    (run stateDirty resetEvents).errorMsg ≠ none ∧
    (run stateDirty resetEvents).status ≠ ProcessingStatus.IDLE := by
  refine ⟨?_, ?_, ?_⟩ <;> decide

/-- C3 (amended): uploading a new image resets the whole session around the
new original (images, selection, transcript, error cleared, status Idle),
while the explicit reset clears only originalImage, generatedImages and
chatMessages, leaving selectedIndex, status and error unchanged. -/
theorem upload_resets_reset_partial (s : AppState) (base64 : String) :
    run s (uploadEvents base64) =
      ⟨some base64, [], -1, ProcessingStatus.IDLE, [], none⟩ ∧
    run s resetEvents =
      { s with originalImage := none, generatedImages := [], chatMessages := [] } := by
  constructor <;> rfl

/-! ### C9 -/

/-- C9 is false as stated: on a zero-width bounding rectangle the division
in handleMove is by zero, so no valid percentage is produced (in the
browser the computed position is NaN). -/
theorem handleMove_zero_width_no_percent :
    ¬ ∃ q : Rat, handleMove 50 ⟨0, 0⟩ = some q ∧ 0 ≤ q ∧ q ≤ 100 := by
  rintro ⟨q, hq, -⟩
  rw [show handleMove 50 ⟨0, 0⟩ = none from rfl] at hq
  cases hq

/-- C9 (amended): for every pointer x-coordinate and every bounding
rectangle of nonzero width, handleMove produces a slider position clamped
into [0, 100]. -/
theorem handleMove_clamped (clientX : Rat) (rect : DOMRectModel)
    (h : rect.width ≠ 0) :
    ∃ q, handleMove clientX rect = some q ∧ 0 ≤ q ∧ q ≤ 100 := by
  refine ⟨max 0 (min (max 0 (min (clientX - rect.left) rect.width) / rect.width * 100) 100),
    ?_, le_max_left _ _, ?_⟩
  · unfold handleMove
    rw [if_neg h]
  · exact max_le (by norm_num) (min_le_right _ _)

/-- Witness for the amended C9 on a 10-wide rectangle. -/
theorem handleMove_clamped_witness :
    ∃ q, handleMove 5 ⟨0, 10⟩ = some q ∧ 0 ≤ q ∧ q ≤ 100 :=
  handleMove_clamped 5 ⟨0, 10⟩ (by norm_num)

/-! ### C5 -/

theorem styleSelect_nil_or_idle (s : AppState) (styleId : String) (now : Nat)
    (resp : Except String (List ResponsePart)) :
    handleStyleSelect s styleId now resp = [] ∨
    (run s (handleStyleSelect s styleId now resp)).status = ProcessingStatus.IDLE := by
  unfold handleStyleSelect
  split
  · exact Or.inl rfl
  · split
    · exact Or.inl rfl
    · refine Or.inr ?_
      cases generateReimaginedRoom resp <;> simp [run, applyEvent]

theorem chatRequest_nil_or_idle (t : AppState) (text : String) (now : Nat)
    (respE : Except String (List ResponsePart)) (respC : Except String ChatServiceResponse) :
    handleChatRequest t text now respE respC = [] ∨
    (run t (handleChatRequest t text now respE respC)).status = ProcessingStatus.IDLE := by
  unfold handleChatRequest
  split
  · exact Or.inl rfl
  · refine Or.inr ?_
    cases currentDisplayedImage t <;> cases hc : isEditCommand text <;>
      cases editRoomImage respE <;> cases respC <;>
      simp [run, applyEvent, sendChatMessage]

/-- C5: whenever a controller operation actually issues a gateway request
(style generation, edit, or chat turn), the state after the trace settles
has status Idle, on the success path and on every failure path alike. -/
theorem gateway_settles_to_idle (s t : AppState) (styleId text : String) (now : Nat)
    (resp respE : Except String (List ResponsePart)) (respC : Except String ChatServiceResponse)
    (h1 : ∃ op, Event.gatewayRequest op ∈ handleStyleSelect s styleId now resp)
    (h2 : ∃ op, Event.gatewayRequest op ∈ handleChatRequest t text now respE respC) :
    (run s (handleStyleSelect s styleId now resp)).status = ProcessingStatus.IDLE ∧
    (run t (handleChatRequest t text now respE respC)).status = ProcessingStatus.IDLE := by
  constructor
  · rcases styleSelect_nil_or_idle s styleId now resp with h | h
    · rcases h1 with ⟨op, hop⟩
      rw [h] at hop
      cases hop
    · exact h
  · rcases chatRequest_nil_or_idle t text now respE respC with h | h
    · rcases h2 with ⟨op, hop⟩
      rw [h] at hop
      cases hop
    · exact h

/-- Witness for C5: a failed style generation and a failed chat turn both
issue a gateway request and both settle back to Idle. -/
theorem gateway_settles_to_idle_witness :
    (run stateIdleImg (handleStyleSelect stateIdleImg "scandi" 0 (Except.ok []))).status =
      ProcessingStatus.IDLE ∧
    (run stateIdleImg
        (handleChatRequest stateIdleImg "hello" 0 (Except.ok []) (Except.error "x"))).status =
      ProcessingStatus.IDLE :=
  gateway_settles_to_idle stateIdleImg stateIdleImg "scandi" "hello" 0
    (Except.ok []) (Except.ok []) (Except.error "x")
    ⟨GatewayOp.regenerate, by decide⟩ ⟨GatewayOp.chat, by decide⟩

/-! ### C7 -/

/-- C7: a failed style-selection (Regenerate) call leaves generatedImages
and selectedIndex unchanged, appends no image, sets a non-empty error
message, and returns the status to Idle. -/
theorem failed_regenerate_no_append (s : AppState) (styleId : String) (now : Nat)
    (resp : Except String (List ResponsePart)) (style : StylePreset) (err : String)
    (tr : List Event)
    (h1 : s.originalImage ≠ none)
    (h2 : s.status ≠ ProcessingStatus.GENERATING)
    (h3 : STYLE_PRESETS.find? (fun p => p.id == styleId) = some style)
    (hfail : generateReimaginedRoom resp = Except.error err)
    (htr : tr = handleStyleSelect s styleId now resp) :
    (run s tr).generatedImages = s.generatedImages ∧
    (run s tr).selectedImageIndex = s.selectedImageIndex ∧
    (run s tr).status = ProcessingStatus.IDLE ∧
    imageAppends tr = [] ∧
    ∃ m, (run s tr).errorMsg = some m ∧ m ≠ "" := by
  subst htr
  unfold handleStyleSelect
  rw [if_neg (not_or.mpr ⟨h1, h2⟩), h3, hfail]
  refine ⟨by simp [run, applyEvent], by simp [run, applyEvent], by simp [run, applyEvent],
    by simp [imageAppends],
    "Failed to generate design. Please try again.", by simp [run, applyEvent], by simp⟩

/-- Witness for C7: a transport failure on the Scandinavian preset. -/
theorem failed_regenerate_no_append_witness :
    (run stateWithImage (handleStyleSelect stateWithImage "scandi" 0 (Except.error "boom"))).generatedImages =
      stateWithImage.generatedImages ∧
    (run stateWithImage (handleStyleSelect stateWithImage "scandi" 0 (Except.error "boom"))).selectedImageIndex =
      stateWithImage.selectedImageIndex ∧
    (run stateWithImage (handleStyleSelect stateWithImage "scandi" 0 (Except.error "boom"))).status =
      ProcessingStatus.IDLE ∧
    imageAppends (handleStyleSelect stateWithImage "scandi" 0 (Except.error "boom")) = [] ∧
    ∃ m, (run stateWithImage (handleStyleSelect stateWithImage "scandi" 0 (Except.error "boom"))).errorMsg =
      some m ∧ m ≠ "" :=
  failed_regenerate_no_append stateWithImage "scandi" 0 (Except.error "boom")
    ⟨"scandi", "Scandinavian",
     "Scandinavian style, minimalism, white walls, light wood floors, cozy textiles, functional furniture, bright and airy",
     "bg-slate-100"⟩ "boom" _ (by decide) (by decide) (by decide) rfl rfl

/-! ### C4 -/

/-- C4: every successful append — a successful style selection or a
successful chat edit — grows generatedImages by exactly one entry and sets
selectedIndex to the previous length of the sequence, the index of the
newly appended entry. -/
theorem append_selects_new_image (s t : AppState) (styleId text : String) (now : Nat)
    (respS respE : Except String (List ResponsePart)) (respC : Except String ChatServiceResponse)
    (style : StylePreset) (url url2 : String) :
    (s.originalImage ≠ none → s.status ≠ ProcessingStatus.GENERATING →
      STYLE_PRESETS.find? (fun p => p.id == styleId) = some style →
      generateReimaginedRoom respS = Except.ok url →
      (run s (handleStyleSelect s styleId now respS)).generatedImages =
        s.generatedImages ++
          [⟨toString now, url, style.name, some ("Reimagined in " ++ style.name ++ " style")⟩] ∧
      (run s (handleStyleSelect s styleId now respS)).selectedImageIndex =
        Int.ofNat s.generatedImages.length) ∧
    (t.status ≠ ProcessingStatus.EDITING →
      (currentDisplayedImage t).isSome = true →
      isEditCommand text = true →
      editRoomImage respE = Except.ok url2 →
      (run t (handleChatRequest t text now respE respC)).generatedImages =
        t.generatedImages ++ [⟨toString now, url2, "Custom Edit", some text⟩] ∧
      (run t (handleChatRequest t text now respE respC)).selectedImageIndex =
        Int.ofNat t.generatedImages.length) := by
  constructor
  · intro h1 h2 h3 h4
    unfold handleStyleSelect
    rw [if_neg (not_or.mpr ⟨h1, h2⟩), h3, h4]
    exact ⟨by simp [run, applyEvent], by simp [run, applyEvent]⟩
  · intro ht hcur hcmd h4
    obtain ⟨cur, hc⟩ := Option.isSome_iff_exists.mp hcur
    unfold handleChatRequest
    rw [if_neg ht, hc, hcmd, h4]
    exact ⟨by simp [run, applyEvent], by simp [run, applyEvent]⟩

/-- Witness for C4: a successful Scandinavian generation from a fresh
session, and a successful "add a plant" edit of a displayed image. -/
theorem append_selects_new_image_witness :
    ((run stateIdleImg (handleStyleSelect stateIdleImg "scandi" 5 (Except.ok [partImg]))).generatedImages =
       stateIdleImg.generatedImages ++
         [⟨"5", mkDataUrl inlA, "Scandinavian", some "Reimagined in Scandinavian style"⟩] ∧
     (run stateIdleImg (handleStyleSelect stateIdleImg "scandi" 5 (Except.ok [partImg]))).selectedImageIndex =
       Int.ofNat stateIdleImg.generatedImages.length) ∧
    ((run stateWithImage (handleChatRequest stateWithImage "add a plant" 5 (Except.ok [partImg]) (Except.error "x"))).generatedImages =
       stateWithImage.generatedImages ++ [⟨"5", mkDataUrl inlA, "Custom Edit", some "add a plant"⟩] ∧
     (run stateWithImage (handleChatRequest stateWithImage "add a plant" 5 (Except.ok [partImg]) (Except.error "x"))).selectedImageIndex =
       Int.ofNat stateWithImage.generatedImages.length) := by
  have h := append_selects_new_image stateIdleImg stateWithImage "scandi" "add a plant" 5
    (Except.ok [partImg]) (Except.ok [partImg]) (Except.error "x")
    ⟨"scandi", "Scandinavian",
     "Scandinavian style, minimalism, white walls, light wood floors, cozy textiles, functional furniture, bright and airy",
     "bg-slate-100"⟩ (mkDataUrl inlA) (mkDataUrl inlA)
  refine ⟨?_, ?_⟩
  · have := h.1 (by decide) (by decide) (by decide) rfl
    simpa using this
  · have := h.2 (by decide) (by decide) (by decide) rfl
    simpa using this

/-! ### C2 -/

/-- C2: when a chat submission is classified as an edit command while an
image is displayed and the Edit gateway call fails, exactly one model
message — the apologetic one — is appended after the gateway call settles,
no RoomImage is appended anywhere in the operation, and the transcript
gains exactly the user message, the optimistic progress message and the
apology. -/
theorem failed_edit_one_apology (s : AppState) (text : String) (now : Nat)
    (img : RoomImage) (err : String)
    (respE : Except String (List ResponsePart)) (respC : Except String ChatServiceResponse)
    (tr : List Event)
    (hst : s.status ≠ ProcessingStatus.EDITING)
    (himg : currentDisplayedImage s = some img)
    (hcmd : isEditCommand text = true)
    (hfail : editRoomImage respE = Except.error err)
    (htr : tr = handleChatRequest s text now respE respC) :
    modelAppends (afterGatewayCall tr) = [editFailedMsg now] ∧
    imageAppends tr = [] ∧
    (run s tr).generatedImages = s.generatedImages ∧
    (run s tr).chatMessages =
      s.chatMessages ++ [userChatMsg text now, editingProgressMsg now, editFailedMsg now] := by
  subst htr
  unfold handleChatRequest
  rw [if_neg hst, himg, hcmd, hfail]
  refine ⟨?_, ?_, ?_, ?_⟩
  · simp [afterGatewayCall, isGatewayEv, modelAppends, editFailedMsg, List.dropWhile]
  · simp [imageAppends]
  · simp [run, applyEvent]
  · simp [run, applyEvent]

/-- Witness for C2: an edit command against a displayed image whose gateway
response carries no inline image. -/
theorem failed_edit_one_apology_witness :
    modelAppends (afterGatewayCall
        (handleChatRequest stateWithImage "add a plant" 3 (Except.ok []) (Except.error "x"))) =
      [editFailedMsg 3] ∧
    imageAppends (handleChatRequest stateWithImage "add a plant" 3 (Except.ok []) (Except.error "x")) = [] ∧
    (run stateWithImage
        (handleChatRequest stateWithImage "add a plant" 3 (Except.ok []) (Except.error "x"))).generatedImages =
      stateWithImage.generatedImages ∧
    (run stateWithImage
        (handleChatRequest stateWithImage "add a plant" 3 (Except.ok []) (Except.error "x"))).chatMessages =
      stateWithImage.chatMessages ++ [userChatMsg "add a plant" 3, editingProgressMsg 3, editFailedMsg 3] :=
  failed_edit_one_apology stateWithImage "add a plant" 3 imgA "No edited image generated."
    (Except.ok []) (Except.error "x") _ (by decide) (by decide) (by decide) rfl rfl

/-! ### C10 -/

/-- C10: every chat submission that passes the busy guard appends exactly
one user-role message carrying the submitted text, as the very first event
of the operation — before any gateway request and before any model message
— on the edit path and the chat path, success or failure. -/
theorem user_message_first (s : AppState) (text : String) (now : Nat)
    (respE : Except String (List ResponsePart)) (respC : Except String ChatServiceResponse)
    (tr : List Event)
    (hst : s.status ≠ ProcessingStatus.EDITING)
    (htr : tr = handleChatRequest s text now respE respC) :
    (userChatMsg text now).role = Role.user ∧
    (userChatMsg text now).text = text ∧
    ∃ rest, tr = Event.appendMsg (userChatMsg text now) :: rest ∧ userAppends rest = [] := by
  subst htr
  unfold handleChatRequest
  rw [if_neg hst]
  refine ⟨rfl, rfl, _, rfl, ?_⟩
  cases currentDisplayedImage s <;> cases isEditCommand text <;>
    cases editRoomImage respE <;> cases respC <;>
    simp [userAppends, sendChatMessage, editingProgressMsg, editDoneMsg, editFailedMsg, chatFailedMsg]

/-- Witness for C10 on a plain chat question in an idle session. -/
theorem user_message_first_witness :
    (userChatMsg "hello" 0).role = Role.user ∧
    (userChatMsg "hello" 0).text = "hello" ∧
    ∃ rest, handleChatRequest stateIdleImg "hello" 0 (Except.ok []) (Except.error "x") =
      Event.appendMsg (userChatMsg "hello" 0) :: rest ∧ userAppends rest = [] :=
  user_message_first stateIdleImg "hello" 0 (Except.ok []) (Except.error "x") _ (by decide) rfl

/-! ### C8 -/

theorem extractDataUrl_eq_none_iff : ∀ parts : List ResponsePart,
    extractDataUrl parts = none ↔ ∀ q ∈ parts, q.inlineData = none := by
  intro parts
  induction parts with
  | nil => simp [extractDataUrl]
  | cons p ps ih =>
    rw [extractDataUrl]
    cases hp : p.inlineData with
    | none => simpa [hp] using ih
    | some d => simp [hp]

theorem extractDataUrl_first (p : ResponsePart) (d : InlineData) (r : List ResponsePart) :
    ∀ l : List ResponsePart, (∀ q ∈ l, q.inlineData = none) → p.inlineData = some d →
      extractDataUrl (l ++ p :: r) = some (mkDataUrl d) := by
  intro l
  induction l with
  | nil =>
    intro _ hp
    simp [extractDataUrl, hp]
  | cons x xs ih =>
    intro hl hp
    have hx : x.inlineData = none := hl x (List.mem_cons_self x xs)
    rw [List.cons_append, extractDataUrl, hx]
    exact ih (fun q hq => hl q (List.mem_cons_of_mem x hq)) hp

/-- C8: on a service response, the Regenerate and Edit gateway operations
fail with their NoImageReturned-style errors exactly when no part of the
response carries inline image data; and when a first inline part exists,
each returns the data URL built from it. -/
theorem gateway_first_inline_or_error (parts1 parts2 l r : List ResponsePart)
    (p : ResponsePart) (d : InlineData) :
    (generateReimaginedRoom (Except.ok parts1) = Except.error "No image generated." ↔
       ∀ q ∈ parts1, q.inlineData = none) ∧
    (editRoomImage (Except.ok parts1) = Except.error "No edited image generated." ↔
       ∀ q ∈ parts1, q.inlineData = none) ∧
    (parts2 = l ++ p :: r → (∀ q ∈ l, q.inlineData = none) → p.inlineData = some d →
       generateReimaginedRoom (Except.ok parts2) = Except.ok (mkDataUrl d) ∧
       editRoomImage (Except.ok parts2) = Except.ok (mkDataUrl d)) := by
  refine ⟨?_, ?_, ?_⟩
  · rw [← extractDataUrl_eq_none_iff]
    cases h : extractDataUrl parts1 <;> simp [generateReimaginedRoom, h]
  · rw [← extractDataUrl_eq_none_iff]
    cases h : extractDataUrl parts1 <;> simp [editRoomImage, h]
  · rintro rfl hl hp
    have he := extractDataUrl_first p d r l hl hp
    exact ⟨by simp [generateReimaginedRoom, he], by simp [editRoomImage, he]⟩

/-- An inline blob whose mimeType is the empty string (falsy in JS). -/
def inlEmpty : InlineData := ⟨some "", "BBB"⟩

/-- A response part carrying the empty-mimeType inline blob. -/
def partEmptyMime : ResponsePart := ⟨none, some inlEmpty⟩

/-- Witness for C8: a text-only response yields the no-image errors, a
response whose second part is the first inline part yields its data URL,
and an inline part with an empty-string mimeType falls back to image/jpeg. -/
theorem gateway_first_inline_or_error_witness :
    (generateReimaginedRoom (Except.ok [partText]) = Except.error "No image generated." ↔
       ∀ q ∈ [partText], q.inlineData = none) ∧
    (editRoomImage (Except.ok [partText]) = Except.error "No edited image generated." ↔
       ∀ q ∈ [partText], q.inlineData = none) ∧
    (generateReimaginedRoom (Except.ok [partText, partImg]) = Except.ok (mkDataUrl inlA) ∧
     editRoomImage (Except.ok [partText, partImg]) = Except.ok (mkDataUrl inlA)) ∧
    (generateReimaginedRoom (Except.ok [partEmptyMime]) = Except.ok "data:image/jpeg;base64,BBB" ∧
     editRoomImage (Except.ok [partEmptyMime]) = Except.ok "data:image/jpeg;base64,BBB") :=
  ⟨(gateway_first_inline_or_error [partText] [partText, partImg] [partText] [] partImg inlA).1,
   (gateway_first_inline_or_error [partText] [partText, partImg] [partText] [] partImg inlA).2.1,
   (gateway_first_inline_or_error [partText] [partText, partImg] [partText] [] partImg inlA).2.2
     rfl (by decide) rfl,
   (gateway_first_inline_or_error [partEmptyMime] [partEmptyMime] [] [] partEmptyMime inlEmpty).2.2
     rfl (by decide) rfl⟩
